import Mathlib

/-!
Shallow embedding of the schema-definition and row-validation core of the
`brad` repository. The repository carries two near-duplicate dialects of the
same design:

* the `brad` dialect (`src/python/src/brad/sql/{types,objects,schema}.py`),
  embedded below in namespace `Brad`;
* the `bread` dialect (`src/src/bread/sql/{objects,validation,tables}.py`),
  embedded below in namespace `Bread` (object model) and `BreadV`
  (the `DataValidator`, which was written against an earlier `Column`
  iteration that is no longer among the source files).

Python values are modelled by the inductive `PyVal`; Python `None` is
`PyVal.none`; exceptions are modelled by `Except Err`.
-/

/-- Errors a modelled Python operation can raise, plus the database-driver
error used by the schema-lifecycle model. -/
inductive Err
  | typeError
  | attributeError
  | keyError
  | dbError
deriving DecidableEq, Repr

/-- Python `datetime.date`: year, month, day. -/
structure PyDate where
  year : Nat
  month : Nat
  day : Nat
deriving DecidableEq, Repr

/-- Left-pad a decimal rendering with zeros to width `k` (Python's fixed-width
formatting used by `date.isoformat`). -/
def zfill (k : Nat) (s : String) : String :=
  String.mk (List.replicate (k - s.length) '0') ++ s

/-- Python `date.isoformat()`: `YYYY-MM-DD`. -/
def PyDate.isoformat (d : PyDate) : String :=
  zfill 4 (toString d.year) ++ "-" ++ zfill 2 (toString d.month) ++ "-" ++ zfill 2 (toString d.day)

/-- The native Python values the engine passes around: `None`, `int`, `bool`,
`str`, `Decimal` (carried by its literal rendering, which is all the code ever
uses of it) and `date`. -/
inductive PyVal
  | none
  | int (i : Int)
  | bool (b : Bool)
  | str (s : String)
  | dec (lit : String)
  | date (d : PyDate)
deriving DecidableEq, Repr

/-- The Python classes used as `isinstance` targets by the two dialects
(`int`, `Decimal`, `bool`, `date`, `str`). -/
inductive PyType
  | intT
  | decT
  | boolT
  | dateT
  | strT
deriving DecidableEq, Repr

/-- Python `isinstance(v, t)` over the value model. `bool` is a subclass of
`int` in Python, so a `bool` value passes an `int` check; `None` is an
instance of none of these classes. -/
def pyIsInstance : PyVal → PyType → Bool
  | PyVal.int _, PyType.intT => true
  | PyVal.bool _, PyType.intT => true
  | PyVal.bool _, PyType.boolT => true
  | PyVal.dec _, PyType.decT => true
  | PyVal.date _, PyType.dateT => true
  | PyVal.str _, PyType.strT => true
  | _, _ => false

/-- Python `str(v)` for the values the default-rendering code applies it to. -/
def pyStr : PyVal → String
  | PyVal.none => "None"
  | PyVal.int i => toString i
  | PyVal.bool b => if b then "True" else "False"
  | PyVal.str s => s
  | PyVal.dec lit => lit
  | PyVal.date d => d.isoformat

/-- Python `str.upper()` over the value's characters (used for boolean
default literals). -/
def pyUpper (s : String) : String := String.mk (s.data.map Char.toUpper)

/-- Truthiness of a Python `Optional[str]`: `None` and the empty string are
falsy. -/
def truthyStr : Option String → Bool
  | Option.none => false
  | Option.some s => !s.isEmpty

/-- Truthiness of a Python `Optional[bool]`: `None` is falsy. -/
def truthyBool : Option Bool → Bool
  | Option.none => false
  | Option.some b => b

/-- The SQL type objects of `types.py` (brad) and `objects.py` (bread): the
two dialects define the same classes. `Numeric` carries precision and scale. -/
inductive SqlType
  | integer
  | bigint
  | numeric (precision scale : Nat)
  | boolean
  | date
  | text
deriving DecidableEq, Repr

/-- `SqlType.sql()`: the SQL type token. -/
def SqlType.sql : SqlType → String
  | SqlType.integer => "INTEGER"
  | SqlType.bigint => "BIGINT"
  | SqlType.numeric p s => "NUMERIC(" ++ toString p ++ ", " ++ toString s ++ ")"
  | SqlType.boolean => "BOOLEAN"
  | SqlType.date => "DATE"
  | SqlType.text => "TEXT"

/-- `SqlType.py()`: the native value class the type accepts. -/
def SqlType.py : SqlType → PyType
  | SqlType.integer => PyType.intT
  | SqlType.bigint => PyType.intT
  | SqlType.numeric _ _ => PyType.decT
  | SqlType.boolean => PyType.boolT
  | SqlType.date => PyType.dateT
  | SqlType.text => PyType.strT

/-- Python `isinstance(sql_type, (Integer, BigInt))`. -/
def isIntegerClass : SqlType → Bool
  | SqlType.integer => true
  | SqlType.bigint => true
  | _ => false

/-- A `Column` as both dialects store it after `__init__`: `default` holds the
already-rendered SQL literal (the constructors below build it), `not_null`
keeps the caller's `Optional[bool]` unless identity generation forced `True`. -/
structure Column where
  name : String
  sql_type : SqlType
  generated_identity : Option String
  not_null : Option Bool
  default : Option String
deriving DecidableEq, Repr

/-- `GeneratedIdOptions.ALWAYS` / `GeneratedIdentityOptions.ALWAYS`. -/
def GeneratedIdOptions.ALWAYS : String := "ALWAYS"

/-- `GeneratedIdOptions.BY_DEFAULT` / `GeneratedIdentityOptions.BY_DEFAULT`. -/
def GeneratedIdOptions.BY_DEFAULT : String := "BY DEFAULT"

namespace Brad

/-- `Column.__init__` of `src/python/src/brad/sql/objects.py`: raises
`TypeError` when identity generation is combined with a non-Integer/BigInt
type, and when a supplied default is not an instance of the column's native
type; otherwise stores the rendered default literal (text quoted, boolean
upper-cased, date ISO-formatted, everything else via `str`). -/
def Column.init (name : String) (sql_type : SqlType) (generated_identity : Option String)
    (not_null : Option Bool) (default : Option PyVal) : Except Err Column :=
  if truthyStr generated_identity && !isIntegerClass sql_type then
    Except.error Err.typeError
  else
    let nn := if truthyStr generated_identity then Option.some true else not_null
    match default with
    | Option.none => Except.ok ⟨name, sql_type, generated_identity, nn, Option.none⟩
    | Option.some v =>
      if !pyIsInstance v sql_type.py then
        Except.error Err.typeError
      else
        let lit :=
          match sql_type, v with
          | SqlType.text, _ => "'" ++ pyStr v ++ "'"
          | SqlType.boolean, _ => pyUpper (pyStr v)
          | SqlType.date, PyVal.date d => d.isoformat
          | SqlType.date, _ => ""  -- unreachable: the isinstance guard forces a date value
          | _, _ => pyStr v
        Except.ok ⟨name, sql_type, generated_identity, nn, Option.some lit⟩

end Brad

namespace Bread

/-- `Column.__init__` of `src/src/bread/sql/objects.py`: the identity/type
check is the same as brad's, but there is no default/type check — the default
is rendered by the branch selected by the column's SQL type alone. A non-date
default on a `Date` column raises `AttributeError` (`default.isoformat()`). -/
def Column.init (name : String) (sql_type : SqlType) (generated_identity : Option String)
    (not_null : Option Bool) (default : Option PyVal) : Except Err Column :=
  if truthyStr generated_identity && !isIntegerClass sql_type then
    Except.error Err.typeError
  else
    let nn := if truthyStr generated_identity then Option.some true else not_null
    match default with
    | Option.none => Except.ok ⟨name, sql_type, generated_identity, nn, Option.none⟩
    | Option.some v =>
      match sql_type with
      | SqlType.text => Except.ok ⟨name, sql_type, generated_identity, nn, Option.some ("'" ++ pyStr v ++ "'")⟩
      | SqlType.boolean => Except.ok ⟨name, sql_type, generated_identity, nn, Option.some (pyUpper (pyStr v))⟩
      | SqlType.date =>
        match v with
        | PyVal.date d => Except.ok ⟨name, sql_type, generated_identity, nn, Option.some d.isoformat⟩
        | _ => Except.error Err.attributeError
      | _ => Except.ok ⟨name, sql_type, generated_identity, nn, Option.some (pyStr v)⟩

end Bread

/-- `Column.to_sql` — identical in both dialects: the double-quoted name and
SQL type token, then either the identity clause alone, or `NOT NULL` (when the
stored flag is truthy) followed by `DEFAULT <literal>` (when a default is
stored). -/
def Column.to_sql (c : Column) : String :=
  let col_def := "\"" ++ c.name ++ "\" " ++ c.sql_type.sql
  if truthyStr c.generated_identity then
    col_def ++ " GENERATED " ++ c.generated_identity.getD "" ++ " AS IDENTITY"
  else
    let col_def := col_def ++ (if truthyBool c.not_null then " NOT NULL" else "")
    match c.default with
    | Option.none => col_def
    | Option.some d => col_def ++ " DEFAULT " ++ d

/-- A `Row`: an insertion-ordered mapping from column name to native value
(both dialects build it from a dict, so keys are distinct in practice; none of
the theorems below needs that assumption unless stated). -/
abbrev Row := List (String × PyVal)

/-- `Row.columns()`: the key list in insertion order. -/
def rowColumns (r : Row) : List String := r.map Prod.fst

/-- Lookup of the first binding of a key in a row. -/
def rowFind? (r : Row) (k : String) : Option PyVal :=
  (r.find? (fun p => p.1 == k)).map Prod.snd

namespace Brad

/-- `Row.__getitem__` of the brad dialect: `getattr` raises `AttributeError`
when the column is absent. -/
def rowGetItem (r : Row) (k : String) : Except Err PyVal :=
  match rowFind? r k with
  | Option.some v => Except.ok v
  | Option.none => Except.error Err.attributeError

end Brad

namespace Bread

/-- `Row.__getitem__` of the bread dialect: returns `None` when the column is
absent. -/
def rowGetItem (r : Row) (k : String) : PyVal :=
  (rowFind? r k).getD PyVal.none

end Bread

/-- A rendered table constraint (`Constraint` base class of both dialects). -/
structure Constraint where
  name : Option String
  sql : String
deriving DecidableEq, Repr

/-- `Constraint.to_sql`. -/
def Constraint.to_sql (c : Constraint) : String :=
  match c.name with
  | Option.some n => "CONSTRAINT \"" ++ n ++ "\" " ++ c.sql
  | Option.none => c.sql

/-- Comma-joined double-quoted identifiers, as every column list renders. -/
def joinQuoted (cols : List String) : String :=
  String.intercalate ", " (cols.map (fun c => "\"" ++ c ++ "\""))

/-- `PrimaryKey.__init__`. -/
def PrimaryKey.init (columns : List String) (name : Option String) : Constraint :=
  ⟨name, "PRIMARY KEY (" ++ joinQuoted columns ++ ")"⟩

/-- `ForeignKey.__init__`. -/
def ForeignKey.init (columns : List String) (ref_table : String) (ref_columns : List String)
    (on_delete on_update : String) (name : Option String) : Constraint :=
  ⟨name, "FOREIGN KEY (" ++ joinQuoted columns ++ ") REFERENCES \"" ++ ref_table ++ "\" ("
    ++ joinQuoted ref_columns ++ ") ON DELETE " ++ on_delete ++ " ON UPDATE " ++ on_update⟩

/-- `Unique.__init__`. -/
def Unique.init (columns : List String) (name : Option String) : Constraint :=
  ⟨name, "UNIQUE (" ++ joinQuoted columns ++ ")"⟩

/-- A `Table`: name, ordered columns, constraints, seed rows (the bread
dialect calls the seed field `data`; the shape is the same). -/
structure Table where
  name : String
  columns : List Column
  constraints : List Constraint
  seed : List Row
deriving DecidableEq, Repr

/-- The reasons the validators reject with, one per distinct diagnostic
message in the source. -/
inductive Reason
  | notInTable (column : String)
  | autogenerated (column : String)
  | requiredMissing (column : String)
  | nonNullable (column : String)
  | typeMismatch (column : String)
  | invalidTable (table : String)
  | invalidColumns
deriving DecidableEq, Repr

/-- Outcome of a validation call: acceptance, or rejection with a reason. -/
inductive VResult
  | ok
  | rejected (r : Reason)
deriving DecidableEq, Repr

/-- The boolean the Python functions actually return (`True` on acceptance). -/
def VResult.toBool : VResult → Bool
  | VResult.ok => true
  | VResult.rejected _ => false

namespace Brad

/-- `Table.get_writable_columns`: all columns whose identity generation is
`None` or `BY DEFAULT`. -/
def Table.get_writable_columns (t : Table) : List String :=
  (t.columns.filter (fun col =>
    col.generated_identity == Option.none
      || col.generated_identity == Option.some GeneratedIdOptions.BY_DEFAULT)).map Column.name

/-- First loop of `Table._validate_row`: every key of the row must name a
writable column; a key that is no column at all is flagged before a key that
names an autogenerated column. -/
def checkRowColumns (writable_cols table_cols : List String) : List String → Option Reason
  | [] => Option.none
  | row_col :: rest =>
    if writable_cols.contains row_col then checkRowColumns writable_cols table_cols rest
    else if !table_cols.contains row_col then Option.some (Reason.notInTable row_col)
    else Option.some (Reason.autogenerated row_col)

/-- Second loop of `Table._validate_row`, in source order: a column absent
from the row is skipped when it has identity generation or a default and
flagged when it is `NOT NULL`; a present column is flagged when `NOT NULL`
with value `None`, then when its value fails the `isinstance` check. -/
def checkColumns (row : Row) : List Column → Except Err VResult
  | [] => Except.ok VResult.ok
  | col :: rest =>
    if !(rowColumns row).contains col.name then
      if (col.generated_identity == Option.some GeneratedIdOptions.ALWAYS
            || col.generated_identity == Option.some GeneratedIdOptions.BY_DEFAULT)
          || col.default.isSome then
        checkColumns row rest
      else if truthyBool col.not_null then
        Except.ok (VResult.rejected (Reason.requiredMissing col.name))
      else
        checkColumns row rest
    else
      match rowGetItem row col.name with
      | Except.error e => Except.error e
      | Except.ok value =>
        if truthyBool col.not_null && value == PyVal.none then
          Except.ok (VResult.rejected (Reason.nonNullable col.name))
        else if !pyIsInstance value col.sql_type.py then
          Except.ok (VResult.rejected (Reason.typeMismatch col.name))
        else
          checkColumns row rest

/-- `Table._validate_row` of `src/python/src/brad/sql/objects.py`. -/
def Table._validate_row (t : Table) (row : Row) : Except Err VResult :=
  match checkRowColumns (Table.get_writable_columns t) (t.columns.map Column.name) (rowColumns row) with
  | Option.some r => Except.ok (VResult.rejected r)
  | Option.none => checkColumns row t.columns

/-- `tuple(row[col] for col in columns)`: the positional value tuple of one
row; the lookup of a column absent from the row raises, and the exception
propagates. -/
def tupleVals (row : Row) : List String → Except Err (List PyVal)
  | [] => Except.ok []
  | k :: ks =>
    match rowGetItem row k with
    | Except.error e => Except.error e
    | Except.ok v =>
      match tupleVals row ks with
      | Except.error e => Except.error e
      | Except.ok vs => Except.ok (v :: vs)

/-- The row loop of `Table.insert`: each row is validated independently; a row
that validates contributes the tuple of its values at the given column list
(`row[col]` raises `AttributeError` when a column is absent from that row);
a row that fails validation is skipped. -/
def collectVals (t : Table) (columns : List String) : List Row → Except Err (List (List PyVal))
  | [] => Except.ok []
  | row :: rest =>
    match Table._validate_row t row with
    | Except.error e => Except.error e
    | Except.ok v =>
      if v.toBool then
        match tupleVals row columns with
        | Except.error e => Except.error e
        | Except.ok tup =>
          match collectVals t columns rest with
          | Except.error e => Except.error e
          | Except.ok others => Except.ok (tup :: others)
      else
        collectVals t columns rest

/-- `Table.insert` of the brad dialect, up to the executor boundary: the
result is `none` when no statement is executed (no rows, or no valid rows) and
otherwise the SQL text with the positional value tuples handed to
`executemany`. The column list comes from the first row alone. -/
def Table.insert (t : Table) (rows : List Row) : Except Err (Option (String × List (List PyVal))) :=
  match rows with
  | [] => Except.ok Option.none
  | r0 :: _ =>
    let columns := rowColumns r0
    match collectVals t columns rows with
    | Except.error e => Except.error e
    | Except.ok vals =>
      if vals.isEmpty then
        Except.ok Option.none
      else
        Except.ok (Option.some (
          "INSERT INTO \"" ++ t.name ++ "\" (" ++ joinQuoted columns ++ ") VALUES ("
            ++ String.intercalate ", " (columns.map (fun _ => "%s")) ++ ");", vals))

end Brad

namespace Bread

/-- `set(col for row in self.data for col in row.columns())` — only its
membership is ever used, so a list with the same members is faithful. -/
def dataColumns (data : List Row) : List String :=
  (data.map rowColumns).flatten

/-- The `columns` local of `get_insert_statement`: the table columns (in
table-column order) whose name is referenced by at least one row. -/
def insertColumns (t : Table) (data : List Row) : List Column :=
  t.columns.filter (fun c => (dataColumns data).contains c.name)

/-- `Table.get_insert_statement` of `src/src/bread/sql/objects.py`: `None`
when there is no seed data; otherwise the INSERT text over the referenced
columns and one positional tuple per row, a missing key yielding `None`. -/
def Table.get_insert_statement (t : Table) (data : List Row) :
    Option (String × List (List PyVal)) :=
  if data.isEmpty then Option.none
  else
    let columns := insertColumns t data
    let rows := data.map (fun row => columns.map (fun c => rowGetItem row c.name))
    Option.some (
      "INSERT INTO \"" ++ t.name ++ "\" (" ++ joinQuoted (columns.map Column.name)
        ++ ") VALUES (" ++ String.intercalate ", " (columns.map (fun _ => "%s")) ++ ")",
      rows)

end Bread

namespace BreadV

/-- Modelled from the spec: the column record the bread `DataValidator`
(`src/src/bread/sql/validation.py`) reads — the §3 Column with a native value
class (`typ`), `not_null`, `default` and an autoincrement identity marker.
The `Column` iteration the validator and `tests/sql/__init__.py` were written
against (with attributes `typ`, `not_null`, `default`, `autoincrement`) is
not among the source files; the bread `objects.py` `Column` lacks the
`autoincrement` and `typ` attributes the validator reads. -/
structure VColumn where
  name : String
  typ : PyType
  not_null : Bool
  default : Option String
  autoincrement : Bool
deriving DecidableEq, Repr

/-- A table as the `DataValidator` consumes it: name and columns. -/
structure VTable where
  name : String
  columns : List VColumn
deriving DecidableEq, Repr

/-- `data[column_name]`: Python dict lookup, raising `KeyError` when the key
is absent. -/
def dictGetItem (data : List (String × PyVal)) (k : String) : Except Err PyVal :=
  match (data.find? (fun p => p.1 == k)).map Prod.snd with
  | Option.some v => Except.ok v
  | Option.none => Except.error Err.keyError

/-- The per-column loop of `DataValidator.validate`, checks 1-3 in source
order. The presence check is written exactly as the source line 52 has it:
`col.not_null and col.default is not None and column_name not in provided_cols`. -/
def checkLoop (data : List (String × PyVal)) (provided_cols : List String) :
    List VColumn → Except Err VResult
  | [] => Except.ok VResult.ok
  | col :: rest =>
    if col.autoincrement then checkLoop data provided_cols rest
    else if col.not_null && col.default.isSome && !provided_cols.contains col.name then
      Except.ok (VResult.rejected (Reason.requiredMissing col.name))
    else if !provided_cols.contains col.name then checkLoop data provided_cols rest
    else
      match dictGetItem data col.name with
      | Except.error e => Except.error e
      | Except.ok value =>
        if col.not_null && col.default.isNone && value == PyVal.none then
          Except.ok (VResult.rejected (Reason.nonNullable col.name))
        else if !(value == PyVal.none) && !pyIsInstance value col.typ then
          Except.ok (VResult.rejected (Reason.typeMismatch col.name))
        else
          checkLoop data provided_cols rest

/-- `DataValidator.validate(table_name, data)` of
`src/src/bread/sql/validation.py`. The constructor's dict comprehension keeps
the last table of a duplicated name, hence the reversed lookup; an unknown
table, and a provided column outside the allowed (non-autoincrement) set,
reject before the per-column loop. -/
def validate (tables : List VTable) (table_name : String) (data : List (String × PyVal)) :
    Except Err VResult :=
  match tables.reverse.find? (fun t => t.name == table_name) with
  | Option.none => Except.ok (VResult.rejected (Reason.invalidTable table_name))
  | Option.some tbl =>
    let allowed_cols := (tbl.columns.filter (fun c => !c.autoincrement)).map VColumn.name
    let provided_cols := data.map Prod.fst
    if !(provided_cols.all (fun c => allowed_cols.contains c)) then
      Except.ok (VResult.rejected Reason.invalidColumns)
    else
      checkLoop data provided_cols tbl.columns

end BreadV

namespace Brad

/-- One table-level step of `create_schema`
(`src/python/src/brad/sql/schema.py`): `table.drop(conn)`,
`table.create(conn)`, or the seed call `table.insert(conn, table.seed)`
issued for each table with seed data. -/
inductive Op
  | drop (table : String)
  | create (table : String)
  | seed (table : String)
deriving DecidableEq, Repr

/-- Classification helpers over `Op`. -/
def Op.isDrop : Op → Bool
  | Op.drop _ => true
  | _ => false

/-- Whether the step is a create. -/
def Op.isCreate : Op → Bool
  | Op.create _ => true
  | _ => false

/-- Whether the step is a seed insert. -/
def Op.isSeed : Op → Bool
  | Op.seed _ => true
  | _ => false

/-- The step sequence `create_schema` issues: drops in reverse registry order
when `force`, creates in forward order, then (when `seed`) one seed insert per
table with seed data, in forward order. -/
def schemaOps (tables : List Table) (force seedFlag : Bool) : List Op :=
  (if force then tables.reverse.map (fun t => Op.drop t.name) else [])
    ++ tables.map (fun t => Op.create t.name)
    ++ (if seedFlag then (tables.filter (fun t => !t.seed.isEmpty)).map (fun t => Op.seed t.name)
        else [])

/-- A transactional connection: `committed` is the database state visible
outside the transaction, `pending` the statements executed inside the open
transaction. `execute` buffers, `commit` publishes, `rollback` discards —
the driver-level contract of the transactional scope the source obtains with
`db_manager.get_connection()`. -/
structure Conn where
  committed : List Op
  pending : List Op
deriving DecidableEq, Repr

/-- Execute a statement inside the open transaction. -/
def Conn.execute (c : Conn) (op : Op) : Conn := ⟨c.committed, c.pending ++ [op]⟩

/-- `conn.rollback()`. -/
def Conn.rollback (c : Conn) : Conn := ⟨c.committed, []⟩

/-- `conn.commit()`. -/
def Conn.commit (c : Conn) : Conn := ⟨c.committed ++ c.pending, []⟩

/-- Run the step sequence until the executor fails one (`fails` models which
statements the database errors on); execution stops at the first failure and
surfaces the driver error. -/
def runOps (fails : Op → Bool) : Conn → List Op → Conn × Option Err
  | conn, [] => (conn, Option.none)
  | conn, op :: rest =>
    if fails op then (conn, Option.some Err.dbError)
    else runOps fails (conn.execute op) rest

/-- `create_schema(db_manager, force, seed)`: issue the step sequence inside
one transaction; on any failure roll back and propagate the triggering error
(`except ... conn.rollback(); raise`), otherwise commit (`else conn.commit()`). -/
def create_schema (fails : Op → Bool) (tables : List Table) (force seedFlag : Bool)
    (conn : Conn) : Conn × Option Err :=
  match runOps fails conn (schemaOps tables force seedFlag) with
  | (c, Option.some e) => (Conn.rollback c, Option.some e)
  | (c, Option.none) => (Conn.commit c, Option.none)

end Brad

/-- `True` exactly when `_validate_row` accepts the row (the boolean the
Python `if self._validate_row(row)` tests; an exception is not `True`). -/
def Brad.rowIsValid (t : Table) (r : Row) : Bool :=
  match Brad.Table._validate_row t r with
  | Except.ok v => v.toBool
  | Except.error _ => false

/-- The `products` test table of `tests/sql/__init__.py`: `sku`, `name`,
`price` all NOT NULL, no defaults, no autoincrement — in the column record
shape the bread `DataValidator` reads. -/
def BreadV.productsTable : BreadV.VTable :=
  ⟨"products",
    [⟨"sku", PyType.strT, true, Option.none, false⟩,
     ⟨"name", PyType.strT, true, Option.none, false⟩,
     ⟨"price", PyType.decT, true, Option.none, false⟩]⟩

/-- The same `products` schema as a brad `Table` (types as in the test:
TEXT/TEXT/NUMERIC, all NOT NULL, no defaults). -/
def Brad.productsTable : Table :=
  ⟨"products",
    [⟨"sku", SqlType.text, Option.none, Option.some true, Option.none⟩,
     ⟨"name", SqlType.text, Option.none, Option.some true, Option.none⟩,
     ⟨"price", SqlType.numeric 19 4, Option.none, Option.some true, Option.none⟩],
    [PrimaryKey.init ["sku"] Option.none], []⟩

/-- A one-column table whose column is NOT NULL with a default (as
`account.account_type_id` — `Column('account_type_id', BIGINT, not_null=True,
default=-1)` stores the rendered default `-1`). -/
def Brad.defaultedTable : Table :=
  ⟨"t", [⟨"x", SqlType.bigint, Option.none, Option.some true, Option.some "-1"⟩], [], []⟩

/-- The `account_type` table of `src/python/src/brad/sql/schema.py`: identity
`id`, NOT NULL `name`, nullable `name_pt`. -/
def Brad.accountTypeTable : Table :=
  ⟨"account_type",
    [⟨"id", SqlType.bigint, Option.some GeneratedIdOptions.BY_DEFAULT, Option.some true, Option.none⟩,
     ⟨"name", SqlType.text, Option.none, Option.some true, Option.none⟩,
     ⟨"name_pt", SqlType.text, Option.none, Option.none, Option.none⟩],
    [PrimaryKey.init ["id"] (Option.some "pk_account_type"),
     Unique.init ["name"] (Option.some "unq_account_type_name")],
    [[("id", PyVal.int (-1)), ("name", PyVal.str "Unknown"), ("name_pt", PyVal.str "Desconhecido")],
     [("id", PyVal.int 1), ("name", PyVal.str "Checking"), ("name_pt", PyVal.str "Conta corrente")]]⟩

/-- Registry instance for the ordering scenario: table `A` has no foreign key
and carries seed data. -/
def Brad.tableA : Table :=
  ⟨"A",
    [⟨"id", SqlType.bigint, Option.some GeneratedIdOptions.BY_DEFAULT, Option.some true, Option.none⟩,
     ⟨"name", SqlType.text, Option.none, Option.some true, Option.none⟩],
    [PrimaryKey.init ["id"] (Option.some "pk_a")],
    [[("id", PyVal.int 1), ("name", PyVal.str "a")]]⟩

/-- Registry instance for the ordering scenario: table `B` holds a foreign key
into `A` and carries seed data. -/
def Brad.tableB : Table :=
  ⟨"B",
    [⟨"id", SqlType.bigint, Option.some GeneratedIdOptions.BY_DEFAULT, Option.some true, Option.none⟩,
     ⟨"a_id", SqlType.bigint, Option.none, Option.some true, Option.none⟩],
    [PrimaryKey.init ["id"] (Option.some "pk_b"),
     ForeignKey.init ["a_id"] "A" ["id"] "RESTRICT" "CASCADE" (Option.some "fk_b_a")],
    [[("a_id", PyVal.int 1)]]⟩

/-! ## Helper lemmas about row lookup -/

/-- A key listed by `Row.columns()` has a binding. -/
theorem rowFind?_isSome (r : Row) (k : String) (h : k ∈ rowColumns r) :
    (rowFind? r k).isSome := by
  induction r with
  | nil => simp [rowColumns] at h
  | cons p rest ih =>
    simp only [rowColumns, List.map_cons, List.mem_cons] at h
    by_cases hpk : p.1 = k
    · simp [rowFind?, List.find?, hpk]
    · have hk : k ∈ rowColumns rest := by
        rcases h with h | h
        · exact absurd h.symm hpk
        · simpa [rowColumns] using h
      have : (p.1 == k) = false := by simpa using hpk
      simpa [rowFind?, List.find?, this] using ih hk

/-- A found binding means the key is listed. -/
theorem mem_of_rowFind?_eq_some {r : Row} {k : String} {v : PyVal}
    (h : rowFind? r k = Option.some v) : k ∈ rowColumns r := by
  induction r with
  | nil => simp [rowFind?] at h
  | cons p rest ih =>
    by_cases hpk : p.1 = k
    · simp [rowColumns, hpk]
    · have hbeq : (p.1 == k) = false := by simpa using hpk
      simp only [rowFind?, List.find?, hbeq] at h
      have : k ∈ rowColumns rest := ih h
      simp [rowColumns] at this ⊢
      exact Or.inr this

/-- `row[k]` (brad) returns the first binding when the key is listed. -/
theorem rowGetItem_eq_ok (r : Row) (k : String) (h : k ∈ rowColumns r) :
    Brad.rowGetItem r k = Except.ok ((rowFind? r k).getD PyVal.none) := by
  have hs := rowFind?_isSome r k h
  cases hfind : rowFind? r k with
  | none => rw [hfind] at hs; simp at hs
  | some v => simp [Brad.rowGetItem, hfind]

/-- `data[k]` (bread validator) returns the first binding when the key is
listed. -/
theorem dictGetItem_eq_ok (r : Row) (k : String) (h : k ∈ rowColumns r) :
    BreadV.dictGetItem r k = Except.ok ((rowFind? r k).getD PyVal.none) := by
  have hs := rowFind?_isSome r k h
  cases hfind : rowFind? r k with
  | none => rw [hfind] at hs; simp at hs
  | some v =>
    have hf : (r.find? (fun p => p.1 == k)).map Prod.snd = Option.some v := hfind
    simp only [BreadV.dictGetItem]
    rw [hf]
    rfl

/-! ## Totality of the validators (claim C2) -/

/-- The second loop of brad `_validate_row` never raises. -/
theorem checkColumns_total (row : Row) :
    ∀ cols : List Column, ∃ v, Brad.checkColumns row cols = Except.ok v := by
  intro cols
  induction cols with
  | nil => exact ⟨VResult.ok, rfl⟩
  | cons col rest ih =>
    by_cases hmem : col.name ∈ rowColumns row
    · have hc : (rowColumns row).contains col.name = true := by
        simpa [List.contains, List.elem_iff] using hmem
      rw [Brad.checkColumns, hc, rowGetItem_eq_ok row col.name hmem]
      simp only [Bool.not_true, Bool.false_eq_true, if_false]
      split
      · exact ⟨_, rfl⟩
      · split
        · exact ⟨_, rfl⟩
        · exact ih
    · have hc : (rowColumns row).contains col.name = false := by
        simp [List.contains, List.elem_iff, hmem]
      rw [Brad.checkColumns, hc]
      simp only [Bool.not_false, if_true]
      split
      · exact ih
      · split
        · exact ⟨_, rfl⟩
        · exact ih

/-- The per-column loop of the bread validator never raises when the provided
column list is the data's own key list (as `validate` always passes it). -/
theorem checkLoop_total (data : Row) :
    ∀ cols : List BreadV.VColumn, ∃ v, BreadV.checkLoop data (rowColumns data) cols = Except.ok v := by
  intro cols
  induction cols with
  | nil => exact ⟨VResult.ok, rfl⟩
  | cons col rest ih =>
    by_cases hmem : col.name ∈ rowColumns data
    · have hc : (rowColumns data).contains col.name = true := by
        simpa [List.contains, List.elem_iff] using hmem
      rw [BreadV.checkLoop, hc, dictGetItem_eq_ok data col.name hmem]
      simp only [Bool.not_true, Bool.and_false, Bool.false_eq_true, if_false]
      split
      · exact ih
      · split
        · exact ⟨_, rfl⟩
        · split
          · exact ⟨_, rfl⟩
          · exact ih
    · have hc : (rowColumns data).contains col.name = false := by
        simp [List.contains, List.elem_iff, hmem]
      rw [BreadV.checkLoop, hc]
      simp only [Bool.not_false, Bool.and_true, if_true]
      split
      · exact ih
      · split
        · exact ⟨_, rfl⟩
        · exact ih

/-- `DataValidator.validate` never raises. -/
theorem BreadV.validate_total (tables : List BreadV.VTable) (table_name : String) (data : Row) :
    ∃ v, BreadV.validate tables table_name data = Except.ok v := by
  cases hfind : List.find? (fun t => t.name == table_name) tables.reverse with
  | none =>
    exact ⟨VResult.rejected (Reason.invalidTable table_name), by rw [BreadV.validate, hfind]⟩
  | some tbl =>
    rw [BreadV.validate, hfind]
    dsimp only
    split
    · exact ⟨_, rfl⟩
    · exact checkLoop_total data tbl.columns

/-- `Table._validate_row` never raises. -/
theorem Brad.validate_row_total (t : Table) (row : Row) :
    ∃ v, Brad.Table._validate_row t row = Except.ok v := by
  cases hcheck : Brad.checkRowColumns (Brad.Table.get_writable_columns t)
      (t.columns.map Column.name) (rowColumns row) with
  | some r =>
    exact ⟨VResult.rejected r, by rw [Brad.Table._validate_row, hcheck]⟩
  | none =>
    have := checkColumns_total row t.columns
    rw [Brad.Table._validate_row, hcheck]
    exact this

/-- C2: for every table name and input row, validation is total and never
raises — the bread `DataValidator.validate` and the brad
`Table._validate_row` both return an acceptance or a rejection (`Except.ok`)
on every input, never an exception. -/
theorem validators_never_throw :
    (∀ (tables : List BreadV.VTable) (table_name : String) (data : Row),
        ∃ v, BreadV.validate tables table_name data = Except.ok v)
    ∧ (∀ (t : Table) (row : Row), ∃ v, Brad.Table._validate_row t row = Except.ok v) :=
  ⟨BreadV.validate_total, Brad.validate_row_total⟩

/-- C1: the bread validator's presence check (validation.py line 52 reads
`col.default is not None` where its own comment, its error message and its
test demand `is None`) accepts a row missing a NOT NULL, no-default,
no-identity column; the brad `_validate_row` implements the claimed policy
and rejects the same row for the same schema. -/
theorem presence_check_divergence :
    BreadV.validate [BreadV.productsTable] "products"
        [("sku", PyVal.str "A1234"), ("price", PyVal.dec "19.99")] = Except.ok VResult.ok
    ∧ Brad.Table._validate_row Brad.productsTable
        [("sku", PyVal.str "A1234"), ("price", PyVal.dec "19.99")]
      = Except.ok (VResult.rejected (Reason.requiredMissing "name")) :=
  ⟨rfl, rfl⟩

/-! ## Null-value policy (claim C3) -/

/-- In the brad dialect a supplied null on a NOT NULL column is never
tolerated: the second loop cannot accept such a row (any default
notwithstanding). -/
theorem checkColumns_rejects_null (row : Row) :
    ∀ (cols : List Column) (col : Column), col ∈ cols →
      rowFind? row col.name = Option.some PyVal.none → truthyBool col.not_null = true →
      Brad.checkColumns row cols ≠ Except.ok VResult.ok := by
  intro cols
  induction cols with
  | nil => intro col h; simp at h
  | cons c rest ih =>
    intro col hmem hval hnn
    rcases List.mem_cons.mp hmem with rfl | hmem'
    · have hm : col.name ∈ rowColumns row := mem_of_rowFind?_eq_some hval
      have hc : (rowColumns row).contains col.name = true := by
        simpa [List.contains, List.elem_iff] using hm
      rw [Brad.checkColumns, hc, rowGetItem_eq_ok row col.name hm, hval]
      simp [hnn]
    · rw [Brad.checkColumns]
      split
      · split
        · exact ih col hmem' hval hnn
        · split
          · simp
          · exact ih col hmem' hval hnn
      · split
        · simp
        · split
          · simp
          · split
            · simp
            · exact ih col hmem' hval hnn

/-- `_validate_row` never accepts a row that supplies null for a NOT NULL
column, whether or not the column has a default. -/
theorem Brad.null_not_tolerated (t : Table) (row : Row) (col : Column)
    (hcol : col ∈ t.columns) (hval : rowFind? row col.name = Option.some PyVal.none)
    (hnn : truthyBool col.not_null = true) :
    Brad.Table._validate_row t row ≠ Except.ok VResult.ok := by
  rw [Brad.Table._validate_row]
  cases hcheck : Brad.checkRowColumns (Brad.Table.get_writable_columns t)
      (t.columns.map Column.name) (rowColumns row) with
  | some r => simp
  | none => exact checkColumns_rejects_null row t.columns col hcol hval hnn

/-- Soundness of the bread validator's nullability rejection: whenever the
per-column loop rejects with the non-nullable reason, the flagged column
really is NOT NULL with no default and was supplied as null. -/
theorem checkLoop_nonNullable_sound (data : Row) :
    ∀ (provided : List String) (cols : List BreadV.VColumn) (c : String),
      BreadV.checkLoop data provided cols
          = Except.ok (VResult.rejected (Reason.nonNullable c)) →
      ∃ col ∈ cols, col.name = c ∧ col.not_null = true ∧ col.default = Option.none ∧
        rowFind? data col.name = Option.some PyVal.none := by
  intro provided cols c
  induction cols with
  | nil => intro h; simp [BreadV.checkLoop] at h
  | cons col rest ih =>
    intro h
    rw [BreadV.checkLoop] at h
    split at h
    · obtain ⟨col', hmem, hrest⟩ := ih h
      exact ⟨col', List.mem_cons_of_mem col hmem, hrest⟩
    · split at h
      · simp at h
      · split at h
        · obtain ⟨col', hmem, hrest⟩ := ih h
          exact ⟨col', List.mem_cons_of_mem col hmem, hrest⟩
        · split at h
          · simp at h
          · rename_i hauto hreq hprov value heq
            split at h
            · rename_i hcond
              have hname : col.name = c := by
                simpa using h
              obtain ⟨h12, h4⟩ := Bool.and_eq_true_iff.mp hcond
              obtain ⟨h1, h3⟩ := Bool.and_eq_true_iff.mp h12
              have hnn : col.not_null = true := h1
              have hdef : col.default = Option.none := Option.isNone_iff_eq_none.mp h3
              have hvnone : value = PyVal.none := by simpa using h4
              have hfind : rowFind? data col.name = Option.some value := by
                simp only [BreadV.dictGetItem] at heq
                cases hf : (data.find? (fun p => p.1 == col.name)).map Prod.snd with
                | none => rw [hf] at heq; cases heq
                | some w =>
                  rw [hf] at heq
                  cases heq
                  exact hf
              exact ⟨col, List.mem_cons_self col rest, hname, hnn, hdef,
                hvnone ▸ hfind⟩
            · split at h
              · simp at h
              · obtain ⟨col', hmem, hrest⟩ := ih h
                exact ⟨col', List.mem_cons_of_mem col hmem, hrest⟩

/-- Completeness of the bread validator's nullability policy: a
non-autoincrement NOT NULL column with no default that is supplied as null is
never accepted by the per-column loop. -/
theorem checkLoop_rejects_null (data : Row) :
    ∀ (cols : List BreadV.VColumn) (col : BreadV.VColumn), col ∈ cols →
      col.autoincrement = false → col.not_null = true → col.default = Option.none →
      rowFind? data col.name = Option.some PyVal.none →
      BreadV.checkLoop data (rowColumns data) cols ≠ Except.ok VResult.ok := by
  intro cols
  induction cols with
  | nil => intro col h; simp at h
  | cons c rest ih =>
    intro col hmem hauto hnn hdef hval
    rcases List.mem_cons.mp hmem with rfl | hmem'
    · have hm : col.name ∈ rowColumns data := mem_of_rowFind?_eq_some hval
      have hc : (rowColumns data).contains col.name = true := by
        simpa [List.contains, List.elem_iff] using hm
      rw [BreadV.checkLoop, hauto, hc, dictGetItem_eq_ok data col.name hm, hval]
      simp [hnn, hdef]
    · rw [BreadV.checkLoop]
      split
      · exact ih col hmem' hauto hnn hdef hval
      · split
        · simp
        · split
          · exact ih col hmem' hauto hnn hdef hval
          · split
            · simp
            · split
              · simp
              · split
                · simp
                · exact ih col hmem' hauto hnn hdef hval

/-- `validate`-level soundness of the non-nullable rejection reason. -/
theorem BreadV.validate_nonNullable_sound (tables : List BreadV.VTable)
    (table_name : String) (data : Row) (c : String) :
    BreadV.validate tables table_name data
        = Except.ok (VResult.rejected (Reason.nonNullable c)) →
    ∃ tbl, List.find? (fun t => t.name == table_name) tables.reverse = Option.some tbl ∧
      ∃ col ∈ tbl.columns, col.name = c ∧ col.not_null = true ∧
        col.default = Option.none ∧ rowFind? data col.name = Option.some PyVal.none := by
  intro h
  cases hfind : List.find? (fun t => t.name == table_name) tables.reverse with
  | none => rw [BreadV.validate, hfind] at h; simp at h
  | some tbl =>
    rw [BreadV.validate, hfind] at h
    dsimp only at h
    split at h
    · simp at h
    · exact ⟨tbl, rfl, checkLoop_nonNullable_sound data (data.map Prod.fst) tbl.columns c h⟩

/-- `validate`-level completeness: a null supplied for a non-autoincrement
NOT NULL column with no default is never accepted. -/
theorem BreadV.validate_rejects_null (tables : List BreadV.VTable) (table_name : String)
    (data : Row) (tbl : BreadV.VTable) (col : BreadV.VColumn)
    (hfind : List.find? (fun t => t.name == table_name) tables.reverse = Option.some tbl)
    (hmem : col ∈ tbl.columns) (hauto : col.autoincrement = false)
    (hnn : col.not_null = true) (hdef : col.default = Option.none)
    (hval : rowFind? data col.name = Option.some PyVal.none) :
    BreadV.validate tables table_name data ≠ Except.ok VResult.ok := by
  rw [BreadV.validate, hfind]
  dsimp only
  split
  · simp
  · exact checkLoop_rejects_null data tbl.columns col hmem hauto hnn hdef hval

/-- C3 counterexample: the claim as stated fails on the brad dialect — the
one column of `defaultedTable` is NOT NULL *with* a default, yet a supplied
null is rejected, not tolerated. -/
theorem null_with_default_rejected :
    Brad.Table._validate_row Brad.defaultedTable [("x", PyVal.none)]
      = Except.ok (VResult.rejected (Reason.nonNullable "x")) := rfl

/-- C3 (amended): a supplied null on a NOT NULL column is rejected by the
brad `_validate_row` regardless of any default, while the bread
`DataValidator` rejects with the non-nullable reason exactly for NOT NULL
columns without a default (and never accepts a row supplying null for such a
non-autoincrement column). -/
theorem null_value_policy :
    (∀ (t : Table) (row : Row) (col : Column), col ∈ t.columns →
        rowFind? row col.name = Option.some PyVal.none → truthyBool col.not_null = true →
        Brad.Table._validate_row t row ≠ Except.ok VResult.ok)
    ∧ (∀ (tables : List BreadV.VTable) (table_name : String) (data : Row) (c : String),
        BreadV.validate tables table_name data
            = Except.ok (VResult.rejected (Reason.nonNullable c)) →
        ∃ tbl, List.find? (fun t => t.name == table_name) tables.reverse = Option.some tbl ∧
          ∃ col ∈ tbl.columns, col.name = c ∧ col.not_null = true ∧
            col.default = Option.none ∧ rowFind? data col.name = Option.some PyVal.none)
    ∧ (∀ (tables : List BreadV.VTable) (table_name : String) (data : Row)
        (tbl : BreadV.VTable) (col : BreadV.VColumn),
        List.find? (fun t => t.name == table_name) tables.reverse = Option.some tbl →
        col ∈ tbl.columns → col.autoincrement = false →
        col.not_null = true → col.default = Option.none →
        rowFind? data col.name = Option.some PyVal.none →
        BreadV.validate tables table_name data ≠ Except.ok VResult.ok) :=
  ⟨Brad.null_not_tolerated,
   BreadV.validate_nonNullable_sound,
   fun tables table_name data tbl col hfind hmem hauto hnn hdef hval =>
     BreadV.validate_rejects_null tables table_name data tbl col hfind hmem hauto hnn hdef hval⟩

/-! ## Construction-time failures (claim C4) -/

/-- C4 counterexample: the bread `Column.__init__` accepts a default whose
native type (`int`) does not match the declared `Text` type — construction
succeeds and stores the quoted rendering of the mismatched value. -/
theorem default_mismatch_accepted :
    Bread.Column.init "x" SqlType.text Option.none Option.none (Option.some (PyVal.int 123))
      = Except.ok ⟨"x", SqlType.text, Option.none, Option.none, Option.some "'123'"⟩ := rfl

/-- C4 (amended): both dialects fail fast on an identity/non-integer-class
combination; the default/type mismatch check exists only in the brad dialect,
where a mismatching default raises and a type-matching default succeeds — the
bread dialect performs no default/type check. -/
theorem column_construction_failfast :
    (∀ (name : String) (st : SqlType) (gen : Option String) (nn : Option Bool) (d : Option PyVal),
        truthyStr gen = true → isIntegerClass st = false →
        Brad.Column.init name st gen nn d = Except.error Err.typeError
        ∧ Bread.Column.init name st gen nn d = Except.error Err.typeError)
    ∧ (∀ (name : String) (st : SqlType) (nn : Option Bool) (v : PyVal),
        pyIsInstance v st.py = false →
        Brad.Column.init name st Option.none nn (Option.some v) = Except.error Err.typeError)
    ∧ (∀ (name : String) (st : SqlType) (nn : Option Bool) (v : PyVal),
        pyIsInstance v st.py = true →
        ∃ c, Brad.Column.init name st Option.none nn (Option.some v) = Except.ok c)
    ∧ Bread.Column.init "x" SqlType.text Option.none Option.none (Option.some (PyVal.int 123))
        = Except.ok ⟨"x", SqlType.text, Option.none, Option.none, Option.some "'123'"⟩ := by
  refine ⟨?_, ?_, ?_, rfl⟩
  · intro name st gen nn d h1 h2
    constructor
    · simp [Brad.Column.init, h1, h2]
    · simp [Bread.Column.init, h1, h2]
  · intro name st nn v h
    simp [Brad.Column.init, truthyStr, h]
  · intro name st nn v h
    simp [Brad.Column.init, truthyStr, h]

/-! ## Seed-insert builder (claim C5) -/

/-- C5: `get_insert_statement` returns no statement iff there are no seed
rows; otherwise the emitted column list is exactly the table columns (in
table-column order) referenced by at least one row's keys, and each row's
value tuple is positionally aligned to that column list, a missing key
resolving to null. -/
theorem get_insert_statement_spec :
    ∀ (t : Table) (data : List Row),
      (Bread.Table.get_insert_statement t data = Option.none ↔ data = [])
      ∧ (∀ sql vals, Bread.Table.get_insert_statement t data = Option.some (sql, vals) →
          (Bread.insertColumns t data).Sublist t.columns
          ∧ (∀ c : Column, c ∈ Bread.insertColumns t data ↔
              c ∈ t.columns ∧ ∃ r ∈ data, c.name ∈ rowColumns r)
          ∧ vals.length = data.length
          ∧ (∀ (i : Nat) (h1 : i < data.length) (h2 : i < vals.length),
              vals.get ⟨i, h2⟩ = (Bread.insertColumns t data).map
                (fun c => Bread.rowGetItem (data.get ⟨i, h1⟩) c.name))
          ∧ sql = "INSERT INTO \"" ++ t.name ++ "\" ("
              ++ joinQuoted ((Bread.insertColumns t data).map Column.name)
              ++ ") VALUES ("
              ++ String.intercalate ", " ((Bread.insertColumns t data).map (fun _ => "%s"))
              ++ ")") := by
  intro t data
  cases data with
  | nil =>
    constructor
    · simp [Bread.Table.get_insert_statement]
    · intro sql vals h
      simp [Bread.Table.get_insert_statement] at h
  | cons r rest =>
    constructor
    · simp [Bread.Table.get_insert_statement]
    · intro sql vals h
      rw [Bread.Table.get_insert_statement] at h
      simp only [List.isEmpty_cons, Bool.false_eq_true, if_false, Option.some.injEq,
        Prod.mk.injEq] at h
      obtain ⟨hsql, hvals⟩ := h
      subst hsql
      subst hvals
      refine ⟨List.filter_sublist _, ?_, by simp, ?_, rfl⟩
      · intro c
        simp only [Bread.insertColumns, List.mem_filter, Bread.dataColumns,
          List.contains, List.elem_iff, List.mem_flatten, List.mem_map]
        constructor
        · rintro ⟨hc, l, ⟨rr, hrr, rfl⟩, hl⟩
          exact ⟨hc, rr, hrr, hl⟩
        · rintro ⟨hc, rr, hrr, hl⟩
          exact ⟨hc, rowColumns rr, ⟨rr, hrr, rfl⟩, hl⟩
      · intro i h1 h2
        simp only [List.get_eq_getElem, List.getElem_map]

/-! ## Schema lifecycle ordering (claim C6) -/

/-- In `(A ++ B) ++ C`, an index holding a `p`-element lies in the `A` region
when nothing in `B` or `C` satisfies `p`. -/
theorem get_append3_first {α} (A B C' : List α) (p : α → Bool)
    (hB : ∀ a ∈ B, p a = false) (hC : ∀ a ∈ C', p a = false)
    (i : Nat) (h : i < ((A ++ B) ++ C').length)
    (hp : p (((A ++ B) ++ C').get ⟨i, h⟩) = true) : i < A.length := by
  by_contra hge
  push_neg at hge
  by_cases hiAB : i < (A ++ B).length
  · have hmem : ((A ++ B) ++ C').get ⟨i, h⟩ ∈ B := by
      rw [List.get_eq_getElem, List.getElem_append_left hiAB,
        List.getElem_append_right hge]
      exact List.getElem_mem _
    rw [hB _ hmem] at hp
    cases hp
  · push_neg at hiAB
    have hmem : ((A ++ B) ++ C').get ⟨i, h⟩ ∈ C' := by
      rw [List.get_eq_getElem, List.getElem_append_right hiAB]
      exact List.getElem_mem _
    rw [hC _ hmem] at hp
    cases hp

/-- In `(A ++ B) ++ C`, an index holding a `p`-element lies past the `A`
region when nothing in `A` satisfies `p`. -/
theorem get_append3_past_first {α} (A B C' : List α) (p : α → Bool)
    (hA : ∀ a ∈ A, p a = false) (i : Nat) (h : i < ((A ++ B) ++ C').length)
    (hp : p (((A ++ B) ++ C').get ⟨i, h⟩) = true) : A.length ≤ i := by
  by_contra hlt
  push_neg at hlt
  have hiAB : i < (A ++ B).length := by
    rw [List.length_append]
    omega
  have hmem : ((A ++ B) ++ C').get ⟨i, h⟩ ∈ A := by
    rw [List.get_eq_getElem, List.getElem_append_left hiAB,
      List.getElem_append_left hlt]
    exact List.getElem_mem _
  rw [hA _ hmem] at hp
  cases hp

/-- In `(A ++ B) ++ C`, an index holding a `p`-element lies in the `A ++ B`
region when nothing in `C` satisfies `p`. -/
theorem get_append3_front {α} (A B C' : List α) (p : α → Bool)
    (hC : ∀ a ∈ C', p a = false) (i : Nat) (h : i < ((A ++ B) ++ C').length)
    (hp : p (((A ++ B) ++ C').get ⟨i, h⟩) = true) : i < A.length + B.length := by
  by_contra hge
  push_neg at hge
  have hgeAB : (A ++ B).length ≤ i := by
    rw [List.length_append]
    omega
  have hmem : ((A ++ B) ++ C').get ⟨i, h⟩ ∈ C' := by
    rw [List.get_eq_getElem, List.getElem_append_right hgeAB]
    exact List.getElem_mem _
  rw [hC _ hmem] at hp
  cases hp

/-- In `(A ++ B) ++ C`, an index holding a `p`-element lies past the `A ++ B`
region when nothing in `A` or `B` satisfies `p`. -/
theorem get_append3_past_front {α} (A B C' : List α) (p : α → Bool)
    (hA : ∀ a ∈ A, p a = false) (hB : ∀ a ∈ B, p a = false)
    (i : Nat) (h : i < ((A ++ B) ++ C').length)
    (hp : p (((A ++ B) ++ C').get ⟨i, h⟩) = true) : A.length + B.length ≤ i := by
  by_contra hlt
  push_neg at hlt
  have hiAB : i < (A ++ B).length := by
    rw [List.length_append]
    omega
  have hmem : ((A ++ B) ++ C').get ⟨i, h⟩ ∈ A ++ B := by
    rw [List.get_eq_getElem, List.getElem_append_left hiAB]
    exact List.getElem_mem _
  rcases List.mem_append.mp hmem with hm | hm
  · rw [hA _ hm] at hp
    cases hp
  · rw [hB _ hm] at hp
    cases hp

/-- Every drop step of a forced run precedes every create step. -/
theorem Brad.schemaOps_drop_before_create (tables : List Table) (sf : Bool) (i j : Nat)
    (hi : i < (Brad.schemaOps tables true sf).length)
    (hj : j < (Brad.schemaOps tables true sf).length)
    (hd : Brad.Op.isDrop ((Brad.schemaOps tables true sf).get ⟨i, hi⟩) = true)
    (hc : Brad.Op.isCreate ((Brad.schemaOps tables true sf).get ⟨j, hj⟩) = true) :
    i < j := by
  have hCno : ∀ a ∈ tables.map (fun t => Brad.Op.create t.name), Brad.Op.isDrop a = false := by
    intro a ha
    obtain ⟨t, _, rfl⟩ := List.mem_map.mp ha
    rfl
  have hSno : ∀ a ∈ (if sf then (tables.filter fun t => !t.seed.isEmpty).map
      (fun t => Brad.Op.seed t.name) else []), Brad.Op.isDrop a = false := by
    intro a ha
    cases sf with
    | true =>
      obtain ⟨t, _, rfl⟩ := List.mem_map.mp ha
      rfl
    | false => simp at ha
  have hDno : ∀ a ∈ tables.reverse.map (fun t => Brad.Op.drop t.name),
      Brad.Op.isCreate a = false := by
    intro a ha
    obtain ⟨t, _, rfl⟩ := List.mem_map.mp ha
    rfl
  have h1 : i < (tables.reverse.map fun t => Brad.Op.drop t.name).length :=
    get_append3_first _ _ _ _ hCno hSno i hi hd
  have h2 : (tables.reverse.map fun t => Brad.Op.drop t.name).length ≤ j :=
    get_append3_past_first _ _ _ _ hDno j hj hc
  omega

/-- Every create step precedes every seed step. -/
theorem Brad.schemaOps_create_before_seed (tables : List Table) (ff : Bool) (i j : Nat)
    (hi : i < (Brad.schemaOps tables ff true).length)
    (hj : j < (Brad.schemaOps tables ff true).length)
    (hc : Brad.Op.isCreate ((Brad.schemaOps tables ff true).get ⟨i, hi⟩) = true)
    (hs : Brad.Op.isSeed ((Brad.schemaOps tables ff true).get ⟨j, hj⟩) = true) :
    i < j := by
  have hSno : ∀ a ∈ (tables.filter fun t => !t.seed.isEmpty).map (fun t => Brad.Op.seed t.name),
      Brad.Op.isCreate a = false := by
    intro a ha
    obtain ⟨t, _, rfl⟩ := List.mem_map.mp ha
    rfl
  have hDno : ∀ a ∈ (if ff then tables.reverse.map (fun t => Brad.Op.drop t.name) else []),
      Brad.Op.isSeed a = false := by
    intro a ha
    cases ff with
    | true =>
      obtain ⟨t, _, rfl⟩ := List.mem_map.mp ha
      rfl
    | false => simp at ha
  have hCno : ∀ a ∈ tables.map (fun t => Brad.Op.create t.name),
      Brad.Op.isSeed a = false := by
    intro a ha
    obtain ⟨t, _, rfl⟩ := List.mem_map.mp ha
    rfl
  have h1 : i < (if ff then tables.reverse.map (fun t => Brad.Op.drop t.name) else []).length
      + (tables.map fun t => Brad.Op.create t.name).length :=
    get_append3_front _ _ _ _ hSno i hi hc
  have h2 : (if ff then tables.reverse.map (fun t => Brad.Op.drop t.name) else []).length
      + (tables.map fun t => Brad.Op.create t.name).length ≤ j :=
    get_append3_past_front _ _ _ _ hDno hCno j hj hs
  omega

/-- Filtering a mapped list by a predicate every image satisfies keeps it. -/
theorem filter_map_all {α β} (f : α → β) (p : β → Bool) (l : List α)
    (h : ∀ a, p (f a) = true) : (l.map f).filter p = l.map f := by
  induction l with
  | nil => rfl
  | cons a l ih => simp [h, ih]

/-- Filtering a mapped list by a predicate no image satisfies empties it. -/
theorem filter_map_none {α β} (f : α → β) (p : β → Bool) (l : List α)
    (h : ∀ a, p (f a) = false) : (l.map f).filter p = [] := by
  induction l with
  | nil => rfl
  | cons a l ih => simp [h, ih]

/-- The drop subsequence of a forced run is the registry in reverse order. -/
theorem Brad.schemaOps_filter_drop (tables : List Table) :
    (Brad.schemaOps tables true true).filter Brad.Op.isDrop
      = tables.reverse.map (fun t => Brad.Op.drop t.name) := by
  have hD := filter_map_all (fun t : Table => Brad.Op.drop t.name) Brad.Op.isDrop
    tables.reverse (fun a => rfl)
  have hC := filter_map_none (fun t : Table => Brad.Op.create t.name) Brad.Op.isDrop
    tables (fun a => rfl)
  have hS := filter_map_none (fun t : Table => Brad.Op.seed t.name) Brad.Op.isDrop
    (tables.filter fun t => !t.seed.isEmpty) (fun a => rfl)
  show (((tables.reverse.map fun t => Brad.Op.drop t.name)
      ++ (tables.map fun t => Brad.Op.create t.name))
      ++ ((tables.filter fun t => !t.seed.isEmpty).map fun t => Brad.Op.seed t.name)).filter
        Brad.Op.isDrop
    = tables.reverse.map fun t => Brad.Op.drop t.name
  rw [List.filter_append, List.filter_append, hD, hC, hS]
  simp

/-- The create subsequence of a run is the registry in forward order. -/
theorem Brad.schemaOps_filter_create (tables : List Table) :
    (Brad.schemaOps tables true true).filter Brad.Op.isCreate
      = tables.map (fun t => Brad.Op.create t.name) := by
  have hD := filter_map_none (fun t : Table => Brad.Op.drop t.name) Brad.Op.isCreate
    tables.reverse (fun a => rfl)
  have hC := filter_map_all (fun t : Table => Brad.Op.create t.name) Brad.Op.isCreate
    tables (fun a => rfl)
  have hS := filter_map_none (fun t : Table => Brad.Op.seed t.name) Brad.Op.isCreate
    (tables.filter fun t => !t.seed.isEmpty) (fun a => rfl)
  show (((tables.reverse.map fun t => Brad.Op.drop t.name)
      ++ (tables.map fun t => Brad.Op.create t.name))
      ++ ((tables.filter fun t => !t.seed.isEmpty).map fun t => Brad.Op.seed t.name)).filter
        Brad.Op.isCreate
    = tables.map fun t => Brad.Op.create t.name
  rw [List.filter_append, List.filter_append, hD, hC, hS]
  simp

/-- C6: in a forced, seeded run the drop steps come first and follow the
registry in reverse order, the create steps follow in forward registry order,
and every seed step comes after every create step; on the two-table registry
`A` (no foreign key), `B` (foreign key into `A`), the run drops `B` before
`A`, creates `A` before `B`, and seeds `A` before `B`, with every create
before every seed. -/
theorem schema_order_spec :
    (∀ tables : List Table,
      ((Brad.schemaOps tables true true).filter Brad.Op.isDrop
          = tables.reverse.map (fun t => Brad.Op.drop t.name))
      ∧ ((Brad.schemaOps tables true true).filter Brad.Op.isCreate
          = tables.map (fun t => Brad.Op.create t.name))
      ∧ (∀ (i j : Nat) (hi : i < (Brad.schemaOps tables true true).length)
            (hj : j < (Brad.schemaOps tables true true).length),
          (Brad.Op.isDrop ((Brad.schemaOps tables true true).get ⟨i, hi⟩) = true →
            Brad.Op.isCreate ((Brad.schemaOps tables true true).get ⟨j, hj⟩) = true → i < j)
          ∧ (Brad.Op.isCreate ((Brad.schemaOps tables true true).get ⟨i, hi⟩) = true →
            Brad.Op.isSeed ((Brad.schemaOps tables true true).get ⟨j, hj⟩) = true → i < j)))
    ∧ Brad.schemaOps [Brad.tableA, Brad.tableB] true true
        = [Brad.Op.drop "B", Brad.Op.drop "A", Brad.Op.create "A", Brad.Op.create "B",
           Brad.Op.seed "A", Brad.Op.seed "B"] :=
  ⟨fun tables =>
    ⟨Brad.schemaOps_filter_drop tables,
     Brad.schemaOps_filter_create tables,
     fun i j hi hj =>
      ⟨fun hd hc => Brad.schemaOps_drop_before_create tables true i j hi hj hd hc,
       fun hc hs => Brad.schemaOps_create_before_seed tables true i j hi hj hc hs⟩⟩,
   rfl⟩

/-! ## Transactional schema creation (claim C7) -/

/-- Running a step sequence either succeeds, appending every step to the
pending transaction with no step failing, or stops at a failing step with the
committed state untouched. -/
theorem runOps_spec (fails : Brad.Op → Bool) :
    ∀ (ops : List Brad.Op) (conn : Brad.Conn),
      ((Brad.runOps fails conn ops).2 = Option.none
        ∧ (Brad.runOps fails conn ops).1 = ⟨conn.committed, conn.pending ++ ops⟩
        ∧ ∀ op ∈ ops, fails op = false)
      ∨ ((Brad.runOps fails conn ops).2 = Option.some Err.dbError
        ∧ (Brad.runOps fails conn ops).1.committed = conn.committed
        ∧ ∃ op ∈ ops, fails op = true) := by
  intro ops
  induction ops with
  | nil =>
    intro conn
    left
    exact ⟨rfl, by simp; rfl, fun op h => absurd h (List.not_mem_nil op)⟩
  | cons op rest ih =>
    intro conn
    by_cases hf : fails op = true
    · right
      rw [Brad.runOps, if_pos hf]
      exact ⟨rfl, rfl, op, List.mem_cons_self op rest, hf⟩
    · have hf' : fails op = false := Bool.not_eq_true _ ▸ eq_false_of_ne_true hf
      rcases ih (conn.execute op) with ⟨h1, h2, h3⟩ | ⟨h1, h2, h3⟩
      · left
        rw [Brad.runOps, if_neg hf]
        refine ⟨h1, ?_, ?_⟩
        · rw [h2]
          simp [Brad.Conn.execute]
        · intro op' hmem
          rcases List.mem_cons.mp hmem with rfl | hmem'
          · exact hf'
          · exact h3 op' hmem'
      · right
        rw [Brad.runOps, if_neg hf]
        obtain ⟨op', hmem, hop'⟩ := h3
        exact ⟨h1, h2, op', List.mem_cons_of_mem op hmem, hop'⟩

/-- C7: `create_schema` propagates an error exactly when some step fails; on
failure it rolls back, leaving the committed database state exactly as before
the call with nothing pending; the commit happens only when every step
succeeded, in which case the committed state is extended by precisely the
whole step sequence — never a partial commit. -/
theorem schema_transaction_spec :
    ∀ (fails : Brad.Op → Bool) (tables : List Table) (force seedFlag : Bool) (conn : Brad.Conn),
      ((Brad.create_schema fails tables force seedFlag conn).2.isSome
          ↔ ∃ op ∈ Brad.schemaOps tables force seedFlag, fails op = true)
      ∧ ((Brad.create_schema fails tables force seedFlag conn).2.isSome →
          (Brad.create_schema fails tables force seedFlag conn).1.committed = conn.committed
          ∧ (Brad.create_schema fails tables force seedFlag conn).1.pending = [])
      ∧ ((Brad.create_schema fails tables force seedFlag conn).2 = Option.none →
          conn.pending = [] →
          (Brad.create_schema fails tables force seedFlag conn).1
            = ⟨conn.committed ++ Brad.schemaOps tables force seedFlag, []⟩) := by
  intro fails tables force seedFlag conn
  have hspec := runOps_spec fails (Brad.schemaOps tables force seedFlag) conn
  rcases hrun : Brad.runOps fails conn (Brad.schemaOps tables force seedFlag) with ⟨c, res⟩
  rw [hrun] at hspec
  rw [Brad.create_schema, hrun]
  cases res with
  | none =>
    dsimp only
    rcases hspec with ⟨_, h2, h3⟩ | ⟨h1, _, _⟩
    · dsimp only at h2
      refine ⟨?_, ?_, ?_⟩
      · constructor
        · intro habs
          simp at habs
        · rintro ⟨op, hmem, hop⟩
          rw [h3 op hmem] at hop
          cases hop
      · intro habs
        simp at habs
      · intro _ hpend
        rw [h2]
        simp [Brad.Conn.commit, hpend]
    · cases h1
  | some e =>
    dsimp only
    rcases hspec with ⟨h1, _, _⟩ | ⟨_, h2, h3⟩
    · cases h1
    · dsimp only at h2
      refine ⟨?_, ?_, ?_⟩
      · exact iff_of_true rfl h3
      · intro _
        exact ⟨h2, rfl⟩
      · intro habs
        cases habs

/-! ## Column DDL rendering (claim C8) -/

/-- C8: every rendered column starts with the double-quoted name and the SQL
type token; when identity generation is set only the identity clause follows
— whatever the stored NOT NULL flag and default are, they are not rendered;
otherwise `NOT NULL` is appended when the flag is truthy, then `DEFAULT` with
the type-aware literal (text quoted, boolean upper-cased, date ISO-8601),
including the two scenario renderings. -/
theorem column_ddl_rendering :
    (∀ c : Column, ∃ suffix, Column.to_sql c
        = "\"" ++ c.name ++ "\" " ++ c.sql_type.sql ++ suffix)
    ∧ (∀ (name : String) (st : SqlType) (g : String) (nn : Option Bool) (d : Option String),
        g.isEmpty = false →
        Column.to_sql ⟨name, st, Option.some g, nn, d⟩
          = "\"" ++ name ++ "\" " ++ st.sql ++ " GENERATED " ++ g ++ " AS IDENTITY")
    ∧ (∀ (name : String) (nn : Option Bool) (s : String) (c : Column),
        Brad.Column.init name SqlType.text Option.none nn (Option.some (PyVal.str s))
            = Except.ok c →
        Column.to_sql c = "\"" ++ name ++ "\" " ++ "TEXT"
          ++ (if truthyBool nn then " NOT NULL" else "") ++ " DEFAULT " ++ ("'" ++ s ++ "'"))
    ∧ (∀ (name : String) (nn : Option Bool) (b : Bool) (c : Column),
        Brad.Column.init name SqlType.boolean Option.none nn (Option.some (PyVal.bool b))
            = Except.ok c →
        Column.to_sql c = "\"" ++ name ++ "\" " ++ "BOOLEAN"
          ++ (if truthyBool nn then " NOT NULL" else "") ++ " DEFAULT "
          ++ (if b then "TRUE" else "FALSE"))
    ∧ (∀ (name : String) (nn : Option Bool) (dt : PyDate) (c : Column),
        Brad.Column.init name SqlType.date Option.none nn (Option.some (PyVal.date dt))
            = Except.ok c →
        Column.to_sql c = "\"" ++ name ++ "\" " ++ "DATE"
          ++ (if truthyBool nn then " NOT NULL" else "") ++ " DEFAULT " ++ dt.isoformat)
    ∧ (Brad.Column.init "name" SqlType.text Option.none (Option.some true)
          (Option.some (PyVal.str "N/A"))
        = Except.ok ⟨"name", SqlType.text, Option.none, Option.some true, Option.some "'N/A'"⟩
      ∧ Column.to_sql ⟨"name", SqlType.text, Option.none, Option.some true, Option.some "'N/A'"⟩
        = "\"name\" TEXT NOT NULL DEFAULT 'N/A'")
    ∧ (Brad.Column.init "id" SqlType.bigint (Option.some GeneratedIdOptions.BY_DEFAULT)
          Option.none Option.none
        = Except.ok ⟨"id", SqlType.bigint, Option.some "BY DEFAULT", Option.some true,
            Option.none⟩
      ∧ Column.to_sql ⟨"id", SqlType.bigint, Option.some "BY DEFAULT", Option.some true,
            Option.none⟩
        = "\"id\" BIGINT GENERATED BY DEFAULT AS IDENTITY") := by
  refine ⟨?_, ?_, ?_, ?_, ?_, ⟨rfl, rfl⟩, ⟨rfl, rfl⟩⟩
  · intro c
    simp only [Column.to_sql]
    split
    · exact ⟨" GENERATED " ++ c.generated_identity.getD "" ++ " AS IDENTITY",
        by simp [String.append_assoc]⟩
    · split
      · exact ⟨(if truthyBool c.not_null then " NOT NULL" else ""), rfl⟩
      · rename_i d _
        exact ⟨(if truthyBool c.not_null then " NOT NULL" else "") ++ (" DEFAULT " ++ d),
          by simp [String.append_assoc]⟩
  · intro name st g nn d hg
    simp only [Column.to_sql, truthyStr, hg, Bool.not_false, if_true, Option.getD_some]
  · intro name nn s c h
    have h2 : Except.ok (⟨name, SqlType.text, Option.none, nn, Option.some ("'" ++ s ++ "'")⟩ : Column)
        = (Except.ok c : Except Err Column) := h
    injection h2 with h3
    subst h3
    rfl
  · intro name nn b c h
    cases b with
    | true =>
      have h2 : Except.ok (⟨name, SqlType.boolean, Option.none, nn,
            Option.some "TRUE"⟩ : Column)
          = (Except.ok c : Except Err Column) := h
      injection h2 with h3
      subst h3
      rfl
    | false =>
      have h2 : Except.ok (⟨name, SqlType.boolean, Option.none, nn,
            Option.some "FALSE"⟩ : Column)
          = (Except.ok c : Except Err Column) := h
      injection h2 with h3
      subst h3
      rfl
  · intro name nn dt c h
    have h2 : Except.ok (⟨name, SqlType.date, Option.none, nn, Option.some dt.isoformat⟩ : Column)
        = (Except.ok c : Except Err Column) := h
    injection h2 with h3
    subst h3
    rfl

/-! ## Identity generation forces NOT NULL (claim C9) -/

/-- The `not_null` attribute a successful brad construction stores. -/
theorem Brad.init_not_null_attr (name : String) (st : SqlType) (gen : Option String)
    (nn : Option Bool) (d : Option PyVal) (c : Column)
    (h : Brad.Column.init name st gen nn d = Except.ok c) :
    c.not_null = if truthyStr gen then Option.some true else nn := by
  rw [Brad.Column.init.eq_def] at h
  split at h
  · cases h
  · split at h
    · rename_i htr
      rw [if_pos htr]
      cases d with
      | none =>
        dsimp only at h
        injection h with h2
        subst h2
        rfl
      | some v =>
        dsimp only at h
        split at h
        · cases h
        · injection h with h2
          subst h2
          rfl
    · rename_i htr
      rw [if_neg htr]
      cases d with
      | none =>
        dsimp only at h
        injection h with h2
        subst h2
        rfl
      | some v =>
        dsimp only at h
        split at h
        · cases h
        · injection h with h2
          subst h2
          rfl

/-- The `not_null` attribute a successful bread construction stores. -/
theorem Bread.init_not_null_field (name : String) (st : SqlType) (gen : Option String)
    (nn : Option Bool) (d : Option PyVal) (c : Column)
    (h : Bread.Column.init name st gen nn d = Except.ok c) :
    c.not_null = if truthyStr gen then Option.some true else nn := by
  rw [Bread.Column.init.eq_def] at h
  split at h
  · cases h
  · split at h
    · rename_i htr
      rw [if_pos htr]
      cases d with
      | none =>
        dsimp only at h
        injection h with h2
        subst h2
        rfl
      | some v =>
        dsimp only at h
        split at h
        · injection h with h2
          subst h2
          rfl
        · injection h with h2
          subst h2
          rfl
        · split at h
          · injection h with h2
            subst h2
            rfl
          · cases h
        · injection h with h2
          subst h2
          rfl
    · rename_i htr
      rw [if_neg htr]
      cases d with
      | none =>
        dsimp only at h
        injection h with h2
        subst h2
        rfl
      | some v =>
        dsimp only at h
        split at h
        · injection h with h2
          subst h2
          rfl
        · injection h with h2
          subst h2
          rfl
        · split at h
          · injection h with h2
            subst h2
            rfl
          · cases h
        · injection h with h2
          subst h2
          rfl

/-- C9: whichever dialect constructs the column, identity generation
(`ALWAYS` or `BY DEFAULT`) forces the stored `not_null` to `True`, whatever
the caller passed for `not_null`. -/
theorem identity_forces_not_null :
    ∀ (name : String) (st : SqlType) (gen : Option String) (nn : Option Bool)
      (d : Option PyVal) (c : Column),
      (gen = Option.some GeneratedIdOptions.ALWAYS
        ∨ gen = Option.some GeneratedIdOptions.BY_DEFAULT) →
      (Brad.Column.init name st gen nn d = Except.ok c
        ∨ Bread.Column.init name st gen nn d = Except.ok c) →
      c.not_null = Option.some true := by
  intro name st gen nn d c hgen hinit
  have htr : truthyStr gen = true := by
    rcases hgen with rfl | rfl <;> rfl
  rcases hinit with h | h
  · rw [Brad.init_not_null_attr name st gen nn d c h, htr]
    simp
  · rw [Bread.init_not_null_field name st gen nn d c h, htr]
    simp

/-- C9 witness: the concrete `BY DEFAULT` bigint column constructed with
`not_null=False` still stores `not_null=True`. -/
theorem identity_not_null_witness :
    Column.not_null ⟨"id", SqlType.bigint, Option.some GeneratedIdOptions.BY_DEFAULT,
        Option.some true, Option.none⟩ = Option.some true :=
  identity_forces_not_null "id" SqlType.bigint (Option.some GeneratedIdOptions.BY_DEFAULT)
    (Option.some false) Option.none
    ⟨"id", SqlType.bigint, Option.some GeneratedIdOptions.BY_DEFAULT, Option.some true,
      Option.none⟩
    (Or.inr rfl) (Or.inl rfl)

/-! ## Table.insert behaviour (claim C10) -/

/-- Mapping preserves emptiness. -/
theorem isEmpty_map {α β} (f : α → β) (l : List α) : (l.map f).isEmpty = l.isEmpty := by
  cases l <;> rfl

/-- The value tuple of a row that contains every requested column. -/
theorem tupleVals_eq (row : Row) :
    ∀ (cols : List String), (∀ k ∈ cols, k ∈ rowColumns row) →
      Brad.tupleVals row cols
        = Except.ok (cols.map (fun k => (rowFind? row k).getD PyVal.none)) := by
  intro cols h
  induction cols with
  | nil => rfl
  | cons k ks ih =>
    simp only [Brad.tupleVals, rowGetItem_eq_ok row k (h k (List.mem_cons_self k ks)),
      ih (fun k' hk' => h k' (List.mem_cons_of_mem k hk')), List.map_cons]

/-- The collected tuples of a row list whose valid rows contain every
requested column: exactly the valid rows' tuples, in order. -/
theorem collectVals_eq (t : Table) (columns : List String) :
    ∀ (rs : List Row),
      (∀ r ∈ rs, Brad.rowIsValid t r = true → ∀ k ∈ columns, k ∈ rowColumns r) →
      Brad.collectVals t columns rs
        = Except.ok ((rs.filter (Brad.rowIsValid t)).map
            (fun r => columns.map (fun k => (rowFind? r k).getD PyVal.none))) := by
  intro rs
  induction rs with
  | nil => intro _; rfl
  | cons r rest ih =>
    intro hcov
    obtain ⟨v, hv⟩ := Brad.validate_row_total t r
    have hvalid : Brad.rowIsValid t r = v.toBool := by
      simp only [Brad.rowIsValid, hv]
    rw [Brad.collectVals, hv]
    dsimp only
    cases hvb : v.toBool with
    | true =>
      have hcovr : ∀ k ∈ columns, k ∈ rowColumns r :=
        hcov r (List.mem_cons_self r rest) (by rw [hvalid, hvb])
      rw [if_pos rfl, tupleVals_eq r columns hcovr]
      dsimp only
      rw [ih (fun r' hr' => hcov r' (List.mem_cons_of_mem r hr')),
        List.filter_cons_of_pos (by rw [hvalid, hvb])]
      rfl
    | false =>
      rw [if_neg (by simp),
        ih (fun r' hr' => hcov r' (List.mem_cons_of_mem r hr')),
        List.filter_cons_of_neg (by simp [hvalid, hvb])]

/-- C10 counterexample: both rows validate against `account_type` (the second
omits only the nullable `name_pt`), yet `insert` raises `AttributeError`
while building the second row's value tuple over the first row's column list
— the valid rows are not inserted and the call does not return normally. -/
theorem insert_hetero_rows_raises :
    Brad.Table._validate_row Brad.accountTypeTable
        [("name", PyVal.str "a"), ("name_pt", PyVal.str "b")] = Except.ok VResult.ok
    ∧ Brad.Table._validate_row Brad.accountTypeTable
        [("name", PyVal.str "c")] = Except.ok VResult.ok
    ∧ Brad.Table.insert Brad.accountTypeTable
        [[("name", PyVal.str "a"), ("name_pt", PyVal.str "b")], [("name", PyVal.str "c")]]
      = Except.error Err.attributeError :=
  ⟨rfl, rfl, rfl⟩

/-- C10 (amended): for a non-empty row list in which every row that passes
validation contains all of the first row's keys, `insert` returns normally;
the column list comes solely from the first row, each row is validated
independently, rows failing validation are silently skipped while the valid
rows' tuples (aligned to the first row's columns) are handed to the
statement, and when no row passes validation no statement is produced. -/
theorem insert_spec_amended :
    ∀ (t : Table) (r0 : Row) (rest : List Row),
      (∀ r ∈ r0 :: rest, Brad.rowIsValid t r = true → ∀ k ∈ rowColumns r0, k ∈ rowColumns r) →
      Brad.Table.insert t (r0 :: rest)
        = Except.ok (
            if ((r0 :: rest).filter (Brad.rowIsValid t)).isEmpty then Option.none
            else Option.some (
              "INSERT INTO \"" ++ t.name ++ "\" (" ++ joinQuoted (rowColumns r0)
                ++ ") VALUES ("
                ++ String.intercalate ", " ((rowColumns r0).map (fun _ => "%s")) ++ ");",
              ((r0 :: rest).filter (Brad.rowIsValid t)).map
                (fun r => (rowColumns r0).map (fun k => (rowFind? r k).getD PyVal.none)))) := by
  intro t r0 rest hcov
  rw [Brad.Table.insert, collectVals_eq t (rowColumns r0) (r0 :: rest) hcov]
  dsimp only
  rw [isEmpty_map]
  split
  · rfl
  · rfl

/-- C10 witness: a homogeneous two-row insert into `account_type` produces
the statement over the first row's columns with both tuples. -/
theorem insert_spec_amended_witness :
    Brad.Table.insert Brad.accountTypeTable
        [[("name", PyVal.str "a"), ("name_pt", PyVal.str "b")],
         [("name", PyVal.str "c"), ("name_pt", PyVal.str "d")]]
      = Except.ok (Option.some
          ("INSERT INTO \"account_type\" (\"name\", \"name_pt\") VALUES (%s, %s);",
           [[PyVal.str "a", PyVal.str "b"], [PyVal.str "c", PyVal.str "d"]])) :=
  insert_spec_amended Brad.accountTypeTable
    [("name", PyVal.str "a"), ("name_pt", PyVal.str "b")]
    [[("name", PyVal.str "c"), ("name_pt", PyVal.str "d")]]
    (by decide)
